import Mathlib

/-
Verification development for the multi-provider request-dispatch and
streaming-normalization layer of the Multi-Model Chat Comparator.

The definitions below are a shallow embedding of the JavaScript source:
  * `src/api/metrics.js`            (Metrics.estimateTokenCount, Metrics.calculateCost)
  * `src/api/providers.js`          (OpenAIProvider / AnthropicProvider / GoogleProvider:
                                     makeRequest non-streaming result assembly and
                                     handleStreamingResponse incremental decoding,
                                     ProviderFactory.executeRequest)
  * the App.handleSubmit dispatch loop (same repository, unnamed app file)

Modelling conventions:
  * JavaScript strings are modelled as `List Char` inside the decoders (so that
    buffer splitting can be reasoned about positionally) and as `String` in
    record fields that are only compared for equality.
  * JS `null`/`undefined`/absent fields are modelled with `Option`.
  * JS numbers are modelled as `ℚ` where real arithmetic matters (costs,
    latency) and as `Nat` for token counts (the providers report integers).
  * Byte streams are `List Nat` (each entry one byte); the WHATWG TextDecoder
    used by the source (`new TextDecoder()` with `{stream: true}`) is embedded
    as its per-byte automaton.
  * `JSON.parse` plus the subsequent field accesses are a JS builtin applied
    to one complete line; the decoders take that composite as an explicit
    function parameter (`p`) from the line's characters to the parsed event
    shape, `none` meaning `JSON.parse` threw.  All decoder theorems are
    proved for every such parse function.
-/

namespace Comparator

/-! ## JavaScript truthiness helpers -/

/-- Code points removed by JS `String.prototype.trim` (ECMA-262 WhiteSpace
plus LineTerminator). -/
def isJsWs (c : Char) : Bool :=
  c.toNat ∈ [0x9, 0xA, 0xB, 0xC, 0xD, 0x20, 0xA0, 0x1680,
    0x2000, 0x2001, 0x2002, 0x2003, 0x2004, 0x2005, 0x2006, 0x2007,
    0x2008, 0x2009, 0x200A, 0x2028, 0x2029, 0x202F, 0x205F, 0x3000, 0xFEFF]

/-- JS condition `!s || s.trim() === ''` for a string `s`: `s` is empty or
consists of whitespace only. -/
def jsBlank (s : List Char) : Bool :=
  s.all isJsWs

/-- JS truthiness test `line.trim()` used as a guard: the line contains at
least one non-whitespace character. -/
def jsNonBlank (s : List Char) : Bool :=
  !(jsBlank s)

/-- JS falsiness of an optional string credential (`!apiKey`): absent
(`null`/`undefined`) or the empty string. -/
def jsFalsyStr (k : Option String) : Bool :=
  match k with
  | none => true
  | some s => s.isEmpty

/-- JS `x || old` for an optional numeric field `x` (absent and `0` are both
falsy and keep `old`). -/
def jsOrNat (x : Option Nat) (old : Nat) : Nat :=
  match x with
  | none => old
  | some n => if n = 0 then old else n

/-- JS `x || old` for an optional string field `x` (absent and the empty
string are falsy and keep `old`). -/
def jsOrStr (x : Option (List Char)) (old : Option (List Char)) : Option (List Char) :=
  match x with
  | none => old
  | some s => if s = [] then old else some s

/-! ## Metrics (src/api/metrics.js) -/

/-- Pricing record handed to `Metrics.calculateCost`: USD per 1,000 tokens
for input and output. -/
structure Pricing where
  input : ℚ
  output : ℚ
  deriving Repr, DecidableEq

/-- Embedding of `Metrics.estimateTokenCount(text)`:
`if (!text) return 0; return Math.ceil(text.length / 4);`.
`none` models `null`/`undefined`; the empty string is falsy as well. -/
def estimateTokenCount (text : Option String) : Nat :=
  match text with
  | none => 0
  | some t => if t.isEmpty then 0 else ⌈(t.length : ℚ) / 4⌉₊

/-- Embedding of `Metrics.calculateCost(pricing, inputTokens, outputTokens)`:
`if (!pricing) return null;` then
`(inputTokens/1000)*pricing.input + (outputTokens/1000)*pricing.output`.
The result `none` models JS `null`. -/
def calculateCost (pricing : Option Pricing) (inputTokens outputTokens : ℚ) : Option ℚ :=
  match pricing with
  | none => none
  | some p => some ((inputTokens / 1000) * p.input + (outputTokens / 1000) * p.output)

/-- Spec-side restatement of the token-estimate formula: the integer ceiling
of `length / 4`, written in integer arithmetic, and `0` for empty or absent
text. -/
def specEstimateTokenCount (text : Option String) : Nat :=
  match text with
  | none => 0
  | some t => (t.length + 3) / 4

/-- Spec-side restatement of the cost formula from §4.1 / §8 of the spec. -/
def specCalculateCost (pricing : Option Pricing) (inputTokens outputTokens : ℚ) : Option ℚ :=
  match pricing with
  | none => none
  | some p => some ((inputTokens / 1000) * p.input + (outputTokens / 1000) * p.output)

theorem ceil_div_four (n : Nat) : ⌈(n : ℚ) / 4⌉₊ = (n + 3) / 4 := by
  rcases Nat.eq_zero_or_pos n with h | h
  · subst h; norm_num
  · have hq0 : (n + 3) / 4 ≠ 0 := by omega
    rw [Nat.ceil_eq_iff hq0]
    constructor
    · rw [lt_div_iff₀ (by norm_num : (0 : ℚ) < 4)]
      have hn : ((n + 3) / 4 - 1) * 4 < n := by omega
      exact_mod_cast hn
    · rw [div_le_iff₀ (by norm_num : (0 : ℚ) < 4)]
      have hn : n ≤ (n + 3) / 4 * 4 := by omega
      exact_mod_cast hn

/-! ## WHATWG TextDecoder for UTF-8 (the source's `new TextDecoder()` with
`decode(value, {stream: true})`), embedded as its per-byte automaton. -/

/-- U+FFFD, emitted by TextDecoder for malformed input. -/
def replacementChar : Char := Char.ofNat 0xFFFD

/-- Decoder state of the WHATWG UTF-8 decoder: the code point under
construction, how many continuation bytes are still expected, how many have
been consumed, and the admissible range for the next byte. -/
structure Utf8State where
  codePoint : Nat
  moreBytes : Nat
  seenBytes : Nat
  lowerBoundary : Nat
  upperBoundary : Nat
  deriving Repr, DecidableEq

def utf8Init : Utf8State := ⟨0, 0, 0, 0x80, 0xBF⟩

/-- One byte consumed while no multi-byte sequence is in progress. -/
def utf8Start (b : Nat) : List Char × Utf8State :=
  if b ≤ 0x7F then ([Char.ofNat b], utf8Init)
  else if 0xC2 ≤ b ∧ b ≤ 0xDF then ([], ⟨b % 0x20, 1, 0, 0x80, 0xBF⟩)
  else if 0xE0 ≤ b ∧ b ≤ 0xEF then
    ([], ⟨b % 0x10, 2, 0, if b = 0xE0 then 0xA0 else 0x80, if b = 0xED then 0x9F else 0xBF⟩)
  else if 0xF0 ≤ b ∧ b ≤ 0xF4 then
    ([], ⟨b % 0x8, 3, 0, if b = 0xF0 then 0x90 else 0x80, if b = 0xF4 then 0x8F else 0xBF⟩)
  else ([replacementChar], utf8Init)

/-- One byte consumed in an arbitrary state.  An out-of-range continuation
byte emits U+FFFD and is reprocessed from the start state, as prescribed by
the WHATWG algorithm. -/
def utf8Byte (st : Utf8State) (b : Nat) : List Char × Utf8State :=
  if st.moreBytes = 0 then utf8Start b
  else if st.lowerBoundary ≤ b ∧ b ≤ st.upperBoundary then
    let cp := st.codePoint * 64 + b % 64
    if st.seenBytes + 1 = st.moreBytes then ([Char.ofNat cp], utf8Init)
    else ⟨[], cp, st.moreBytes, st.seenBytes + 1, 0x80, 0xBF⟩
  else
    let r := utf8Start b
    (replacementChar :: r.1, r.2)

/-- Feeding a whole chunk of bytes: `decoder.decode(chunk, {stream: true})`
returns the decoded characters and the carried-over state. -/
def utf8Feed (st : Utf8State) : List Nat → List Char × Utf8State
  | [] => ([], st)
  | b :: bs =>
    let r1 := utf8Byte st b
    let r2 := utf8Feed r1.2 bs
    (r1.1 ++ r2.1, r2.2)

theorem utf8Feed_append (st : Utf8State) (c1 c2 : List Nat) :
    utf8Feed st (c1 ++ c2) =
      ((utf8Feed st c1).1 ++ (utf8Feed (utf8Feed st c1).2 c2).1,
        (utf8Feed (utf8Feed st c1).2 c2).2) := by
  induction c1 generalizing st with
  | nil => simp [utf8Feed]
  | cons b bs ih => simp [utf8Feed, ih, List.append_assoc]

/-! ## JS `buffer.split('\n')` on a character buffer -/

/-- Embedding of `String.prototype.split('\n')`. -/
def jsSplitNl : List Char → List (List Char)
  | [] => [[]]
  | c :: cs =>
    if c = '\n' then [] :: jsSplitNl cs
    else
      match jsSplitNl cs with
      | [] => [[c]]
      | l :: ls => (c :: l) :: ls

theorem jsSplitNl_ne_nil (s : List Char) : jsSplitNl s ≠ [] := by
  cases s with
  | nil => simp [jsSplitNl]
  | cons c cs =>
    simp only [jsSplitNl]
    split
    · simp
    · split <;> simp

/-- Prepend a piece of text to the first line of a split result. -/
def headApp (p : List Char) : List (List Char) → List (List Char)
  | [] => [p]
  | l :: ls => (p ++ l) :: ls

theorem headApp_ne_nil (p : List Char) (ls : List (List Char)) : headApp p ls ≠ [] := by
  cases ls <;> simp [headApp]

theorem headApp_nil (ls : List (List Char)) (h : ls ≠ []) : headApp [] ls = ls := by
  cases ls with
  | nil => exact absurd rfl h
  | cons l ls => simp [headApp]

theorem jsSplitNl_cons (c : Char) (cs : List Char) :
    jsSplitNl (c :: cs) =
      if c = '\n' then [] :: jsSplitNl cs else headApp [c] (jsSplitNl cs) := by
  simp only [jsSplitNl]
  split
  · rfl
  · rcases h : jsSplitNl cs with _ | ⟨l, ls⟩
    · exact absurd h (jsSplitNl_ne_nil cs)
    · simp [headApp]

theorem headApp_headApp (p q : List Char) (ls : List (List Char)) :
    headApp p (headApp q ls) = headApp (p ++ q) ls := by
  cases ls <;> simp [headApp]

theorem jsSplitNl_append (xs ys : List Char) :
    jsSplitNl (xs ++ ys) =
      (jsSplitNl xs).dropLast ++ headApp ((jsSplitNl xs).getLastD []) (jsSplitNl ys) := by
  induction xs with
  | nil =>
    rw [List.nil_append,
      show jsSplitNl ([] : List Char) = [[]] from rfl,
      show ([[]] : List (List Char)).dropLast = [] from rfl,
      show ([[]] : List (List Char)).getLastD [] = [] from rfl,
      headApp_nil _ (jsSplitNl_ne_nil ys), List.nil_append]
  | cons c cs ih =>
    rw [List.cons_append, jsSplitNl_cons, jsSplitNl_cons]
    by_cases hc : c = '\n'
    · simp only [hc, if_pos rfl]
      rw [ih]
      rcases h : jsSplitNl cs with _ | ⟨l, ls⟩
      · exact absurd h (jsSplitNl_ne_nil cs)
      · simp [List.getLastD_cons]
    · simp only [if_neg hc]
      rw [ih]
      rcases h : jsSplitNl cs with _ | ⟨l, ls⟩
      · exact absurd h (jsSplitNl_ne_nil cs)
      · cases ls with
        | nil =>
          rw [show ([l] : List (List Char)).dropLast = [] from rfl,
            show ([l] : List (List Char)).getLastD [] = l from rfl,
            List.nil_append, headApp_headApp,
            show headApp [c] [l] = [[c] ++ l] from rfl,
            show ([[c] ++ l] : List (List Char)).dropLast = [] from rfl,
            show ([[c] ++ l] : List (List Char)).getLastD [] = [c] ++ l from rfl,
            List.nil_append]
        | cons l2 rest =>
          rw [show (l :: l2 :: rest).dropLast = l :: (l2 :: rest).dropLast from rfl,
            List.cons_append,
            show ∀ t, headApp [c] (l :: t) = ([c] ++ l) :: t from fun t => rfl,
            show headApp [c] (l :: l2 :: rest) = ([c] ++ l) :: l2 :: rest from rfl,
            show (([c] ++ l) :: l2 :: rest).dropLast
              = ([c] ++ l) :: (l2 :: rest).dropLast from rfl]
          simp [List.getLastD_cons]

theorem getLastD_jsSplitNl_no_nl (s : List Char) :
    '\n' ∉ (jsSplitNl s).getLastD [] := by
  induction s with
  | nil => simp [jsSplitNl]
  | cons c cs ih =>
    rw [jsSplitNl_cons]
    rcases h : jsSplitNl cs with _ | ⟨l, ls⟩
    · exact absurd h (jsSplitNl_ne_nil cs)
    · rw [h] at ih
      by_cases hc : c = '\n'
      · simpa [hc, List.getLastD_cons] using ih
      · rw [if_neg hc]
        cases ls with
        | nil =>
          rw [show headApp [c] [l] = [c :: l] from by simp [headApp],
            show ([c :: l] : List (List Char)).getLastD [] = c :: l from rfl]
          have hl : '\n' ∉ l := by
            simpa using ih
          simp only [List.mem_cons, not_or]
          exact ⟨fun hh => hc hh.symm, hl⟩
        | cons l2 rest =>
          simpa [headApp, List.getLastD_cons] using ih

theorem jsSplitNl_of_no_nl (s : List Char) (h : '\n' ∉ s) : jsSplitNl s = [s] := by
  induction s with
  | nil => rfl
  | cons c cs ih =>
    have h1 : ¬c = '\n' := fun hh => h (hh ▸ List.mem_cons_self c cs)
    have h2 : '\n' ∉ cs := fun hh => h (List.mem_cons_of_mem c hh)
    rw [jsSplitNl_cons, if_neg h1, ih h2]
    rfl

theorem getLastD_append_cons (xs : List (List Char)) (y : List Char)
    (ys : List (List Char)) (d : List Char) :
    (xs ++ y :: ys).getLastD d = (y :: ys).getLastD d := by
  induction xs generalizing d with
  | nil => rfl
  | cons x xs ih =>
    rw [List.cons_append, List.getLastD_cons, ih, List.getLastD_cons, List.getLastD_cons]

/-! ## The common line-buffering loop of every `handleStreamingResponse`:
`buffer += decoder.decode(value, {stream: true});
 const lines = buffer.split('\n');
 buffer = lines.pop() || '';
 for (const line of lines) ...` -/

/-- Line-buffer state: the retained trailing partial line plus the
provider-specific accumulator. -/
structure LineSt (σ : Type) where
  buf : List Char
  acc : σ
  deriving Repr, DecidableEq

/-- Append decoded text to the buffer, split on newline, process every
complete line with `f`, retain the trailing partial line.  (`lines.pop()`
returns the last element of a non-empty array; the `|| ''` can only apply to
an already-empty popped line.) -/
def feedText (f : σ → List Char → σ) (ls : LineSt σ) (t : List Char) : LineSt σ :=
  let parts := jsSplitNl (ls.buf ++ t)
  ⟨parts.getLastD [], parts.dropLast.foldl f ls.acc⟩

/-- End-of-stream flush:
`if (buffer && buffer.trim()) { const lines = buffer.split('\n');
 for (const line of lines) ... }` with per-line handler `g`. -/
def flushBuf (g : σ → List Char → σ) (ls : LineSt σ) : σ :=
  if ls.buf ≠ [] ∧ jsNonBlank ls.buf then (jsSplitNl ls.buf).foldl g ls.acc
  else ls.acc

theorem feedText_append (f : σ → List Char → σ) (ls : LineSt σ) (t1 t2 : List Char) :
    feedText f (feedText f ls t1) t2 = feedText f ls (t1 ++ t2) := by
  have hlast : jsSplitNl ((jsSplitNl (ls.buf ++ t1)).getLastD [] ++ t2)
      = headApp ((jsSplitNl (ls.buf ++ t1)).getLastD []) (jsSplitNl t2) := by
    rw [jsSplitNl_append, jsSplitNl_of_no_nl _ (getLastD_jsSplitNl_no_nl (ls.buf ++ t1)),
      show ∀ l : List Char, ([l] : List (List Char)).dropLast = [] from fun l => rfl,
      show ∀ l : List Char, ([l] : List (List Char)).getLastD [] = l from fun l => rfl,
      List.nil_append]
  simp only [feedText]
  rw [← List.append_assoc, jsSplitNl_append (ls.buf ++ t1) t2, hlast]
  rcases hY : jsSplitNl t2 with _ | ⟨y, ys⟩
  · exact absurd hY (jsSplitNl_ne_nil t2)
  · rw [show headApp ((jsSplitNl (ls.buf ++ t1)).getLastD []) (y :: ys)
        = ((jsSplitNl (ls.buf ++ t1)).getLastD [] ++ y) :: ys from by simp [headApp]]
    congr 1
    · exact (getLastD_append_cons _ _ _ _).symm
    · rw [List.dropLast_append_cons, List.foldl_append]

/-- Full state of one `handleStreamingResponse` loop: the TextDecoder state
plus the line buffer and the provider accumulator. -/
structure ByteSt (σ : Type) where
  u : Utf8State
  ls : LineSt σ
  deriving Repr, DecidableEq

/-- One iteration of the `while (true) { ... reader.read() ... }` loop body
on one delivered byte chunk, with per-line handler `f`. -/
def chunkStep (f : σ → List Char → σ) (bs : ByteSt σ) (chunk : List Nat) : ByteSt σ :=
  let d := utf8Feed bs.u chunk
  ⟨d.2, feedText f bs.ls d.1⟩

def decodeInit (s0 : σ) : ByteSt σ := ⟨utf8Init, ⟨[], s0⟩⟩

/-- The whole decoding loop over a finite sequence of byte chunks: the main
loop processes each chunk with per-line handler `f`; once the source is
exhausted the remaining buffer is flushed with per-line handler `g`. -/
def runDecoder (f g : σ → List Char → σ) (s0 : σ) (chunks : List (List Nat)) : σ :=
  flushBuf g ((chunks.foldl (chunkStep f) (decodeInit s0)).ls)

/-- The same loop entered at the character level (the text produced by the
TextDecoder), used to state properties that are independent of byte-level
chunking. -/
def runDecoderText (f g : σ → List Char → σ) (s0 : σ) (t : List Char) : σ :=
  flushBuf g (feedText f ⟨[], s0⟩ t)

theorem chunkStep_append (f : σ → List Char → σ) (bs : ByteSt σ) (c1 c2 : List Nat) :
    chunkStep f (chunkStep f bs c1) c2 = chunkStep f bs (c1 ++ c2) := by
  simp only [chunkStep, utf8Feed_append, feedText_append]

theorem foldl_chunkStep_cons (f : σ → List Char → σ) (bs : ByteSt σ)
    (c : List Nat) (cs : List (List Nat)) :
    (c :: cs).foldl (chunkStep f) bs = chunkStep f bs (c ++ cs.flatten) := by
  induction cs generalizing bs c with
  | nil => simp [List.foldl]
  | cons c2 cs ih =>
    rw [List.foldl_cons, ih, chunkStep_append, List.flatten_cons]

theorem chunkStep_init_nil (f : σ → List Char → σ) (s0 : σ) :
    chunkStep f (decodeInit s0) [] = decodeInit s0 := rfl

/-- Chunk-boundary invariance of the whole decoding loop: feeding the byte
stream as any list of chunks gives the same final accumulator as feeding its
concatenation as one single chunk. -/
theorem runDecoder_join (f g : σ → List Char → σ) (s0 : σ) (chunks : List (List Nat)) :
    runDecoder f g s0 chunks = runDecoder f g s0 [chunks.flatten] := by
  cases chunks with
  | nil =>
    simp only [runDecoder, List.flatten_nil, List.foldl, chunkStep_init_nil]
  | cons c cs =>
    simp only [runDecoder, List.foldl, List.flatten_cons]
    rw [show List.foldl (chunkStep f) (chunkStep f (decodeInit s0) c) cs
        = List.foldl (chunkStep f) (decodeInit s0) (c :: cs) from rfl,
      foldl_chunkStep_cons]

/-! ## OpenAI stream decoding (`OpenAIProvider.handleStreamingResponse`) -/

/-- Accumulator of the OpenAI streaming loop: the assembled text (`fullText`)
plus the ordered log of fragments passed to the `onChunk` callback. -/
structure OSt where
  fullText : List Char
  emitted : List (List Char)
  deriving Repr, DecidableEq

def oInit : OSt := ⟨[], []⟩

/-- Per-line handler of the OpenAI loop:
`if (line.startsWith('data: ')) { const data = line.slice(6);
 if (data === '[DONE]') continue; try { const parsed = JSON.parse(data);
 const content = parsed.choices[0]?.delta?.content;
 if (content) { fullText += content; onChunk(content); } } catch ... }`.
The parameter `p` models `JSON.parse(data)` followed by
`parsed.choices[0]?.delta?.content`: `none` when `JSON.parse` throws,
`some none` when the optional chain yields no string, `some (some c)` when
it yields the string `c`; `if (content)` is false exactly for an absent or
empty string. -/
def openaiLine (p : List Char → Option (Option (List Char)))
    (st : OSt) (line : List Char) : OSt :=
  if line.take 6 = "data: ".toList then
    let dat := line.drop 6
    if dat = "[DONE]".toList then st
    else
      match p dat with
      | none => st
      | some none => st
      | some (some c) =>
        if c = [] then st else ⟨st.fullText ++ c, st.emitted ++ [c]⟩
  else st

/-- The OpenAI decoding loop over byte chunks; the flush block
(lines 187-204 of src/api/providers.js) repeats the main-loop per-line
logic verbatim. -/
def openaiDecode (p : List Char → Option (Option (List Char)))
    (chunks : List (List Nat)) : OSt :=
  runDecoder (openaiLine p) (openaiLine p) oInit chunks

/-- The OpenAI decoding loop entered at the character level. -/
def openaiDecodeText (p : List Char → Option (Option (List Char)))
    (t : List Char) : OSt :=
  runDecoderText (openaiLine p) (openaiLine p) oInit t

/-! ## Anthropic stream decoding (`AnthropicProvider.handleStreamingResponse`) -/

/-- The shapes of parsed Anthropic stream events distinguished by the source
(`parsed.type`):  `content_block_delta` with its `delta?.text`,
`message_start` with `message?.usage?.input_tokens`, `message_delta` with
`usage?.output_tokens` and `delta?.stop_reason`, and everything else. -/
inductive AEvent where
  | contentBlockDelta (text : Option (List Char))
  | messageStart (inputTokens : Option Nat)
  | messageDelta (outputTokens : Option Nat) (stopReason : Option (List Char))
  | otherEvent
  deriving Repr, DecidableEq

/-- Accumulator of the Anthropic streaming loop. -/
structure ASt where
  fullText : List Char
  emitted : List (List Char)
  inputTokens : Nat
  outputTokens : Nat
  stopReason : Option (List Char)
  deriving Repr, DecidableEq

def aInit : ASt := ⟨[], [], 0, 0, none⟩

/-- Per-line handler of the Anthropic main loop (providers.js 477-499):
content deltas append and fire the callback when truthy;
`message_start` sets `inputTokens = parsed.message?.usage?.input_tokens || 0`;
`message_delta` sets `outputTokens = parsed.usage?.output_tokens || 0` and
`stopReason = parsed.delta?.stop_reason || stopReason`. -/
def anthropicLine (p : List Char → Option AEvent) (st : ASt) (line : List Char) : ASt :=
  if line.take 6 = "data: ".toList then
    match p (line.drop 6) with
    | none => st
    | some (.contentBlockDelta t) =>
      match t with
      | none => st
      | some c =>
        if c = [] then st
        else { st with fullText := st.fullText ++ c, emitted := st.emitted ++ [c] }
    | some (.messageStart it) => { st with inputTokens := it.getD 0 }
    | some (.messageDelta ot sr) =>
      { st with outputTokens := ot.getD 0, stopReason := jsOrStr sr st.stopReason }
    | some .otherEvent => st
  else st

/-- Per-line handler of the Anthropic flush block (providers.js 504-524):
unlike the main loop it ignores `message_start`, and `message_delta` keeps
the previous counters on falsy fields
(`outputTokens = parsed.usage?.output_tokens || outputTokens`). -/
def anthropicFlushLine (p : List Char → Option AEvent) (st : ASt) (line : List Char) : ASt :=
  if line.take 6 = "data: ".toList then
    match p (line.drop 6) with
    | none => st
    | some (.contentBlockDelta t) =>
      match t with
      | none => st
      | some c =>
        if c = [] then st
        else { st with fullText := st.fullText ++ c, emitted := st.emitted ++ [c] }
    | some (.messageStart _) => st
    | some (.messageDelta ot sr) =>
      { st with outputTokens := jsOrNat ot st.outputTokens,
                stopReason := jsOrStr sr st.stopReason }
    | some .otherEvent => st
  else st

/-- The Anthropic decoding loop over byte chunks. -/
def anthropicDecode (p : List Char → Option AEvent) (chunks : List (List Nat)) : ASt :=
  runDecoder (anthropicLine p) (anthropicFlushLine p) aInit chunks

/-! ## Google stream decoding (`GoogleProvider.handleStreamingResponse`) -/

/-- A parsed Google stream line: `content` models the guarded chain
`parsed.candidates && parsed.candidates[0]?.content?.parts` followed by
`parts[0]?.text` (`some c` exactly when the guard passes and the text is the
string `c`); `usageMetadata` models `parsed.usageMetadata` with its
`promptTokenCount` and `candidatesTokenCount` fields. -/
structure GEvent where
  content : Option (List Char)
  usageMetadata : Option (Option Nat × Option Nat)
  deriving Repr, DecidableEq

/-- Accumulator of the Google streaming loop. -/
structure GSt where
  fullText : List Char
  emitted : List (List Char)
  inputTokens : Nat
  outputTokens : Nat
  deriving Repr, DecidableEq

def gInit : GSt := ⟨[], [], 0, 0⟩

/-- Per-line handler of the Google loop (providers.js 805-826; the flush
block 830-850 repeats it verbatim): non-blank lines are parsed; a truthy
text fragment appends and fires the callback; usage counters are
cumulative/overwriting, falsy values keeping the previous ones. -/
def googleLine (p : List Char → Option GEvent) (st : GSt) (line : List Char) : GSt :=
  if jsNonBlank line then
    match p line with
    | none => st
    | some ev =>
      let st1 :=
        match ev.content with
        | none => st
        | some c =>
          if c = [] then st
          else { st with fullText := st.fullText ++ c, emitted := st.emitted ++ [c] }
      match ev.usageMetadata with
      | none => st1
      | some (pt, ct) =>
        { st1 with inputTokens := jsOrNat pt st1.inputTokens,
                   outputTokens := jsOrNat ct st1.outputTokens }
  else st

/-- The Google decoding loop over byte chunks. -/
def googleDecode (p : List Char → Option GEvent) (chunks : List (List Nat)) : GSt :=
  runDecoder (googleLine p) (googleLine p) gInit chunks

/-- The Google decoding loop entered at the character level. -/
def googleDecodeText (p : List Char → Option GEvent) (t : List Char) : GSt :=
  runDecoderText (googleLine p) (googleLine p) gInit t

/-! ## Generic invariants of the decoding loop -/

theorem foldl_preserve {σ : Type} (P : σ → Prop) (f : σ → List Char → σ)
    (hf : ∀ s l, P s → P (f s l)) :
    ∀ (lines : List (List Char)) (s : σ), P s → P (lines.foldl f s) := by
  intro lines
  induction lines with
  | nil => intro s h; exact h
  | cons l ls ih => intro s h; exact ih _ (hf s l h)

theorem runDecoder_preserve {σ : Type} (P : σ → Prop) (f g : σ → List Char → σ)
    (hf : ∀ s l, P s → P (f s l)) (hg : ∀ s l, P s → P (g s l))
    (s0 : σ) (h0 : P s0) (chunks : List (List Nat)) :
    P (runDecoder f g s0 chunks) := by
  have hmain : P ((chunks.foldl (chunkStep f) (decodeInit s0)).ls.acc) := by
    have : ∀ (cs : List (List Nat)) (bs : ByteSt σ), P bs.ls.acc →
        P ((cs.foldl (chunkStep f) bs).ls.acc) := by
      intro cs
      induction cs with
      | nil => intro bs h; exact h
      | cons c cs ih =>
        intro bs h
        exact ih _ (foldl_preserve P f hf _ _ h)
    exact this chunks (decodeInit s0) h0
  unfold runDecoder flushBuf
  split
  · exact foldl_preserve P g hg _ _ hmain
  · exact hmain

/-! ## Per-provider shape of one line step (the accumulated text and the
callback log either stay unchanged or receive one non-empty fragment) -/

theorem openaiLine_cases (p : List Char → Option (Option (List Char)))
    (st : OSt) (l : List Char) :
    openaiLine p st l = st ∨
      ∃ c, c ≠ [] ∧ openaiLine p st l = ⟨st.fullText ++ c, st.emitted ++ [c]⟩ := by
  by_cases h6 : l.take 6 = ['d', 'a', 't', 'a', ':', ' ']
  · by_cases hd : l.drop 6 = ['[', 'D', 'O', 'N', 'E', ']']
    · exact Or.inl (by simp [openaiLine, h6, hd])
    · rcases hp : p (l.drop 6) with _ | (_ | c)
      · exact Or.inl (by simp [openaiLine, h6, hd, hp])
      · exact Or.inl (by simp [openaiLine, h6, hd, hp])
      · by_cases hc : c = []
        · exact Or.inl (by simp [openaiLine, h6, hd, hp, hc])
        · exact Or.inr ⟨c, hc, by simp [openaiLine, h6, hd, hp, hc]⟩
  · exact Or.inl (by simp [openaiLine, h6])

theorem anthropicLine_text_cases (p : List Char → Option AEvent)
    (st : ASt) (l : List Char) :
    ((anthropicLine p st l).fullText = st.fullText
        ∧ (anthropicLine p st l).emitted = st.emitted) ∨
      ∃ c, c ≠ [] ∧ (anthropicLine p st l).fullText = st.fullText ++ c
        ∧ (anthropicLine p st l).emitted = st.emitted ++ [c] := by
  by_cases h6 : l.take 6 = ['d', 'a', 't', 'a', ':', ' ']
  · rcases hp : p (l.drop 6) with _ | ev
    · exact Or.inl (by simp [anthropicLine, h6, hp])
    · cases ev with
      | contentBlockDelta t =>
        rcases t with _ | c
        · exact Or.inl (by simp [anthropicLine, h6, hp])
        · by_cases hc : c = []
          · exact Or.inl (by simp [anthropicLine, h6, hp, hc])
          · exact Or.inr ⟨c, hc, by simp [anthropicLine, h6, hp, hc]⟩
      | messageStart it => exact Or.inl (by simp [anthropicLine, h6, hp])
      | messageDelta ot sr => exact Or.inl (by simp [anthropicLine, h6, hp])
      | otherEvent => exact Or.inl (by simp [anthropicLine, h6, hp])
  · exact Or.inl (by simp [anthropicLine, h6])

theorem anthropicFlushLine_text_cases (p : List Char → Option AEvent)
    (st : ASt) (l : List Char) :
    ((anthropicFlushLine p st l).fullText = st.fullText
        ∧ (anthropicFlushLine p st l).emitted = st.emitted) ∨
      ∃ c, c ≠ [] ∧ (anthropicFlushLine p st l).fullText = st.fullText ++ c
        ∧ (anthropicFlushLine p st l).emitted = st.emitted ++ [c] := by
  by_cases h6 : l.take 6 = ['d', 'a', 't', 'a', ':', ' ']
  · rcases hp : p (l.drop 6) with _ | ev
    · exact Or.inl (by simp [anthropicFlushLine, h6, hp])
    · cases ev with
      | contentBlockDelta t =>
        rcases t with _ | c
        · exact Or.inl (by simp [anthropicFlushLine, h6, hp])
        · by_cases hc : c = []
          · exact Or.inl (by simp [anthropicFlushLine, h6, hp, hc])
          · exact Or.inr ⟨c, hc, by simp [anthropicFlushLine, h6, hp, hc]⟩
      | messageStart it => exact Or.inl (by simp [anthropicFlushLine, h6, hp])
      | messageDelta ot sr => exact Or.inl (by simp [anthropicFlushLine, h6, hp])
      | otherEvent => exact Or.inl (by simp [anthropicFlushLine, h6, hp])
  · exact Or.inl (by simp [anthropicFlushLine, h6])

theorem googleLine_text_cases (p : List Char → Option GEvent)
    (st : GSt) (l : List Char) :
    ((googleLine p st l).fullText = st.fullText
        ∧ (googleLine p st l).emitted = st.emitted) ∨
      ∃ c, c ≠ [] ∧ (googleLine p st l).fullText = st.fullText ++ c
        ∧ (googleLine p st l).emitted = st.emitted ++ [c] := by
  by_cases hnb : jsNonBlank l = true
  · rcases hp : p l with _ | ⟨co, us⟩
    · exact Or.inl (by simp [googleLine, hnb, hp])
    · rcases co with _ | c
      · rcases us with _ | ⟨pt, ct⟩
        · exact Or.inl (by simp [googleLine, hnb, hp])
        · exact Or.inl (by simp [googleLine, hnb, hp])
      · by_cases hc : c = []
        · rcases us with _ | ⟨pt, ct⟩
          · exact Or.inl (by simp [googleLine, hnb, hp, hc])
          · exact Or.inl (by simp [googleLine, hnb, hp, hc])
        · rcases us with _ | ⟨pt, ct⟩
          · exact Or.inr ⟨c, hc, by simp [googleLine, hnb, hp, hc]⟩
          · exact Or.inr ⟨c, hc, by simp [googleLine, hnb, hp, hc]⟩
  · exact Or.inl (by simp [googleLine, hnb])

theorem openaiLine_blank (p : List Char → Option (Option (List Char)))
    (st : OSt) (l : List Char) (h : jsBlank l = true) :
    openaiLine p st l = st := by
  have h6 : ¬ l.take 6 = ['d', 'a', 't', 'a', ':', ' '] := by
    cases l with
    | nil => simp
    | cons c cs =>
      intro he
      have hc : c = 'd' := by
        have hh := congrArg (fun x => x.headD ' ') he
        simpa using hh
      have hw : isJsWs c = true := by
        simp only [jsBlank, List.all_cons, Bool.and_eq_true] at h
        exact h.1
      rw [hc] at hw
      exact absurd hw (by decide)
  simp [openaiLine, h6]

theorem googleLine_blank (p : List Char → Option GEvent)
    (st : GSt) (l : List Char) (h : jsBlank l = true) :
    googleLine p st l = st := by
  simp [googleLine, jsNonBlank, h]

theorem runDecoderText_newline {σ : Type} (f : σ → List Char → σ) (s0 : σ)
    (hblank : ∀ s l, jsBlank l = true → f s l = s) (t : List Char) :
    runDecoderText f f s0 t = runDecoderText f f s0 (t ++ ['\n']) := by
  unfold runDecoderText
  simp only [feedText, List.nil_append]
  rw [jsSplitNl_append t ['\n'], show jsSplitNl ['\n'] = [[], []] from rfl]
  rw [show headApp ((jsSplitNl t).getLastD []) [[], []]
      = [(jsSplitNl t).getLastD [], []] from by simp [headApp]]
  rw [getLastD_append_cons ((jsSplitNl t).dropLast) ((jsSplitNl t).getLastD []) [[]] [],
    show ([(jsSplitNl t).getLastD [], []] : List (List Char)).getLastD [] = [] from
      by simp [List.getLastD_cons],
    List.dropLast_append_cons,
    show ([(jsSplitNl t).getLastD [], []] : List (List Char)).dropLast
      = [(jsSplitNl t).getLastD []] from rfl,
    List.foldl_append]
  simp only [List.foldl_cons, List.foldl_nil]
  rw [show flushBuf f (⟨[], f (List.foldl f s0 (jsSplitNl t).dropLast)
      ((jsSplitNl t).getLastD [])⟩ : LineSt σ)
    = f (List.foldl f s0 (jsSplitNl t).dropLast) ((jsSplitNl t).getLastD []) from
      by simp [flushBuf]]
  unfold flushBuf
  split
  case isTrue hcond =>
    simp only
    rw [jsSplitNl_of_no_nl _ (getLastD_jsSplitNl_no_nl t)]
    simp [List.foldl_cons]
  case isFalse hcond =>
    simp only
    have hb : jsBlank ((jsSplitNl t).getLastD []) = true := by
      by_cases hne : ((jsSplitNl t).getLastD []) = []
      · rw [hne]; rfl
      · have : ¬ jsNonBlank ((jsSplitNl t).getLastD []) = true := by
          intro hnb
          exact hcond ⟨hne, hnb⟩
        simpa [jsNonBlank] using this
    exact (hblank _ _ hb).symm

/-! ## Decoder-level claims -/

/-- C2: decoding a byte stream delivered as any sequence of chunks — the
split points may fall inside a multi-byte UTF-8 character or inside a JSON
line — produces exactly the same final decoder state (assembled text,
callback log, token counters, terminal reason) as decoding the whole byte
sequence delivered as one single chunk, for each of the three providers and
every parse function. -/
theorem decode_chunk_split_invariant
    (pO : List Char → Option (Option (List Char)))
    (pA : List Char → Option AEvent)
    (pG : List Char → Option GEvent)
    (chunks : List (List Nat)) :
    openaiDecode pO chunks = openaiDecode pO [chunks.flatten]
      ∧ anthropicDecode pA chunks = anthropicDecode pA [chunks.flatten]
      ∧ googleDecode pG chunks = googleDecode pG [chunks.flatten] :=
  ⟨runDecoder_join _ _ _ chunks, runDecoder_join _ _ _ chunks,
    runDecoder_join _ _ _ chunks⟩

/-- C8: a trailing line with no final newline is not discarded — for the
OpenAI and Google decoders (whose flush block repeats the main-loop per-line
logic), decoding a character stream without a final newline gives exactly
the same result as decoding the newline-terminated stream, so the buffered
partial line is processed and its content contributes to the assembled
response. -/
theorem trailing_partial_line_processed
    (pO : List Char → Option (Option (List Char)))
    (pG : List Char → Option GEvent)
    (t : List Char) :
    openaiDecodeText pO t = openaiDecodeText pO (t ++ ['\n'])
      ∧ googleDecodeText pG t = googleDecodeText pG (t ++ ['\n']) :=
  ⟨runDecoderText_newline _ _ (openaiLine_blank pO) t,
    runDecoderText_newline _ _ (googleLine_blank pG) t⟩

/-- Invariant carried by every provider accumulator: the assembled text is
exactly the concatenation of the emitted callback fragments, and every
emitted fragment is non-empty. -/
theorem openaiDecode_callback_invariant
    (pO : List Char → Option (Option (List Char))) (chunks : List (List Nat)) :
    (openaiDecode pO chunks).emitted.all (fun e => !e.isEmpty) = true
      ∧ (openaiDecode pO chunks).fullText = (openaiDecode pO chunks).emitted.flatten := by
  have h := runDecoder_preserve
    (fun st : OSt => st.emitted.all (fun e => !e.isEmpty) = true
      ∧ st.fullText = st.emitted.flatten)
    (openaiLine pO) (openaiLine pO)
    (by
      intro s l hs
      rcases openaiLine_cases pO s l with h | ⟨c, hc, h⟩
      · rw [h]; exact hs
      · rw [h]
        refine ⟨?_, ?_⟩
        · simp [List.all_append, hs.1, hc]
        · simp [hs.2, List.flatten_append])
    (by
      intro s l hs
      rcases openaiLine_cases pO s l with h | ⟨c, hc, h⟩
      · rw [h]; exact hs
      · rw [h]
        refine ⟨?_, ?_⟩
        · simp [List.all_append, hs.1, hc]
        · simp [hs.2, List.flatten_append])
    oInit (by constructor <;> rfl) chunks
  exact h

theorem anthropicDecode_callback_invariant
    (pA : List Char → Option AEvent) (chunks : List (List Nat)) :
    (anthropicDecode pA chunks).emitted.all (fun e => !e.isEmpty) = true
      ∧ (anthropicDecode pA chunks).fullText = (anthropicDecode pA chunks).emitted.flatten := by
  have h := runDecoder_preserve
    (fun st : ASt => st.emitted.all (fun e => !e.isEmpty) = true
      ∧ st.fullText = st.emitted.flatten)
    (anthropicLine pA) (anthropicFlushLine pA)
    (by
      intro s l hs
      rcases anthropicLine_text_cases pA s l with ⟨hf, he⟩ | ⟨c, hc, hf, he⟩
      · rw [hf, he]; exact hs
      · rw [hf, he]
        refine ⟨?_, ?_⟩
        · simp [List.all_append, hs.1, hc]
        · simp [hs.2, List.flatten_append])
    (by
      intro s l hs
      rcases anthropicFlushLine_text_cases pA s l with ⟨hf, he⟩ | ⟨c, hc, hf, he⟩
      · rw [hf, he]; exact hs
      · rw [hf, he]
        refine ⟨?_, ?_⟩
        · simp [List.all_append, hs.1, hc]
        · simp [hs.2, List.flatten_append])
    aInit (by constructor <;> rfl) chunks
  exact h

theorem googleDecode_callback_invariant
    (pG : List Char → Option GEvent) (chunks : List (List Nat)) :
    (googleDecode pG chunks).emitted.all (fun e => !e.isEmpty) = true
      ∧ (googleDecode pG chunks).fullText = (googleDecode pG chunks).emitted.flatten := by
  have h := runDecoder_preserve
    (fun st : GSt => st.emitted.all (fun e => !e.isEmpty) = true
      ∧ st.fullText = st.emitted.flatten)
    (googleLine pG) (googleLine pG)
    (by
      intro s l hs
      rcases googleLine_text_cases pG s l with ⟨hf, he⟩ | ⟨c, hc, hf, he⟩
      · rw [hf, he]; exact hs
      · rw [hf, he]
        refine ⟨?_, ?_⟩
        · simp [List.all_append, hs.1, hc]
        · simp [hs.2, List.flatten_append])
    (by
      intro s l hs
      rcases googleLine_text_cases pG s l with ⟨hf, he⟩ | ⟨c, hc, hf, he⟩
      · rw [hf, he]; exact hs
      · rw [hf, he]
        refine ⟨?_, ?_⟩
        · simp [List.all_append, hs.1, hc]
        · simp [hs.2, List.flatten_append])
    gInit (by constructor <;> rfl) chunks
  exact h

/-- C10: across all three providers, the per-target delta callback is only
ever invoked with a non-empty fragment (an event with an absent or empty
content field triggers no invocation), and the assembled text is exactly
the concatenation of the fragments handed to the callback, for every byte
chunking and every parse function. -/
theorem delta_callback_nonempty_and_appended
    (pO : List Char → Option (Option (List Char)))
    (pA : List Char → Option AEvent)
    (pG : List Char → Option GEvent)
    (chunks : List (List Nat)) :
    ((openaiDecode pO chunks).emitted.all (fun e => !e.isEmpty) = true
      ∧ (openaiDecode pO chunks).fullText = (openaiDecode pO chunks).emitted.flatten)
    ∧ ((anthropicDecode pA chunks).emitted.all (fun e => !e.isEmpty) = true
      ∧ (anthropicDecode pA chunks).fullText = (anthropicDecode pA chunks).emitted.flatten)
    ∧ ((googleDecode pG chunks).emitted.all (fun e => !e.isEmpty) = true
      ∧ (googleDecode pG chunks).fullText = (googleDecode pG chunks).emitted.flatten) :=
  ⟨openaiDecode_callback_invariant pO chunks,
    anthropicDecode_callback_invariant pA chunks,
    googleDecode_callback_invariant pG chunks⟩

/-! ## The per-request result records assembled by makeRequest /
handleStreamingResponse.  A field with value `none` is absent from the JS
object; `estimatedCost`, `stopReason` and `finishReason` are present fields
whose value may itself be JS `null` (inner `Option`). -/

structure RespRecord where
  text : Option (List Char) := none
  latency : Option ℚ := none
  inputTokens : Option Nat := none
  outputTokens : Option Nat := none
  totalTokens : Option Nat := none
  estimatedCost : Option (Option ℚ) := none
  warning : Option String := none
  warningSuggestion : Option String := none
  warningType : Option String := none
  stopReason : Option (Option (List Char)) := none
  finishReason : Option (Option (List Char)) := none
  streamed : Option Bool := none
  error : Option String := none
  errorSuggestion : Option String := none
  errorType : Option String := none
  deriving DecidableEq

/-- OpenAI `usage` object of a non-streaming chat completion. -/
structure OUsage where
  prompt_tokens : Nat
  completion_tokens : Nat
  total_tokens : Nat
  deriving Repr, DecidableEq

/-- Anthropic `usage` object of a non-streaming message. -/
structure AUsage where
  input_tokens : Nat
  output_tokens : Nat
  deriving Repr, DecidableEq

/-! Diagnostic texts of AnthropicProvider.makeRequest and
handleStreamingResponse, transcribed from the template literals; numeric
interpolations take the reported values, `latencyText` stands for the JS
decimal rendering of the float `latency`. -/

def anthropicEndTurnSuggestion (outputTokens inputTokens : Nat) : String :=
  "Claude believes its turn is complete but returned no content. This commonly occurs due to:\n\n"
  ++ "• **Prompt Structure**: The model may interpret the conversation as already complete\n"
  ++ "• **Intermittent Behavior**: Some Claude models occasionally exhibit this behavior (known issue)\n"
  ++ "• **Context Confusion**: The model may think it already responded\n\n"
  ++ "**Recommended Actions**:\n"
  ++ "1. Try rephrasing your prompt with more explicit instructions\n"
  ++ "2. Add \"Please provide a detailed response\" to your prompt\n"
  ++ "3. If using tool results, avoid adding text immediately after them\n"
  ++ "4. Retry the request (intermittent issue may resolve)\n"
  ++ "5. Try a different Claude model (e.g., Haiku or Opus instead of Sonnet)\n\n"
  ++ "**Technical Details**: stop_reason=\"end_turn\", output_tokens=" ++ toString outputTokens
  ++ ", input_tokens=" ++ toString inputTokens

def anthropicEndTurnStreamSuggestion (outputTokens inputTokens : Nat) : String :=
  anthropicEndTurnSuggestion outputTokens inputTokens ++ ", streaming=true"

def anthropicMaxTokensSuggestion (maxTokensDefault : Nat) : String :=
  "The response was cut off because it reached the maximum token limit.\n\n"
  ++ "**Recommended Actions**:\n"
  ++ "1. Increase the max_tokens parameter in settings\n"
  ++ "2. Use a shorter or more focused prompt\n"
  ++ "3. Break your question into smaller parts\n\n"
  ++ "**Technical Details**: stop_reason=\"max_tokens\", max_tokens_limit="
  ++ toString maxTokensDefault

def anthropicStopSequenceSuggestion : String :=
  "The model encountered a predefined stop sequence.\n\n"
  ++ "**Technical Details**: stop_reason=\"stop_sequence\""

def anthropicInterruptedSuggestion (outputTokens respLen : Nat) (latencyText : String) : String :=
  "The streaming connection was interrupted before receiving a complete response from Claude.\n\n"
  ++ "**Most Likely Causes**:\n"
  ++ "• **Proxy/Network Timeout**: The connection between the proxy server and Anthropic\x27s API timed out\n"
  ++ "• **Network Interruption**: Temporary network issue during streaming\n"
  ++ "• **API Connection Reset**: Anthropic\x27s server closed the connection unexpectedly\n\n"
  ++ "**Recommended Actions**:\n"
  ++ "1. **Retry immediately** - This is usually a transient network issue\n"
  ++ "2. Check your internet connection stability\n"
  ++ "3. If it persists, check Anthropic\x27s status page for API outages\n"
  ++ "4. Try using a different network (e.g., switch from WiFi to ethernet)\n"
  ++ "5. Consider increasing proxy timeout settings if this happens frequently\n\n"
  ++ "**Technical Details**: stop_reason=null (never received), output_tokens="
  ++ toString outputTokens ++ ", response_length=" ++ toString respLen
  ++ ", latency=" ++ latencyText ++ "ms\n"
  ++ "**Diagnosis**: No stop_reason received indicates the streaming connection ended prematurely, likely due to network/proxy timeout rather than an API-level issue."

def anthropicUnexpectedEmptySuggestion (stopReasonText : String) (outputTokens respLen : Nat) : String :=
  "Claude returned an empty response without a clear reason.\n\n"
  ++ "**Possible Causes**:\n"
  ++ "• API service overload (HTTP 529 - try again later)\n"
  ++ "• Network timeout or connection issue\n"
  ++ "• Model-specific intermittent behavior\n\n"
  ++ "**Recommended Actions**:\n"
  ++ "1. Retry the request after a few seconds\n"
  ++ "2. Check Anthropic\x27s status page for service issues\n"
  ++ "3. Try a different model\n"
  ++ "4. Simplify your prompt\n\n"
  ++ "**Technical Details**: stop_reason=\"" ++ stopReasonText ++ "\", output_tokens="
  ++ toString outputTokens ++ ", response_length=" ++ toString respLen

/-- Non-streaming result assembly of `OpenAIProvider.makeRequest`
(providers.js 100-141), given the parsed response body: empty or
whitespace-only completion yields an `empty_response` warning whose message
depends on the finish reason, anything else the plain success record. -/
def openaiNonStreamResult (pricing : Option Pricing) (latency : ℚ)
    (completion : List Char) (usage : OUsage) (finishReason : Option (List Char)) :
    RespRecord :=
  let base : RespRecord :=
    { text := some completion
      latency := some latency
      inputTokens := some usage.prompt_tokens
      outputTokens := some usage.completion_tokens
      totalTokens := some usage.total_tokens
      estimatedCost := some (calculateCost pricing usage.prompt_tokens usage.completion_tokens)
      finishReason := some finishReason }
  if jsBlank completion then
    let pair : String × String :=
      if finishReason == some "content_filter".toList then
        ("Response blocked by content filter",
          "OpenAI content filters blocked this response. Try rephrasing your prompt.")
      else if finishReason == some "length".toList then
        ("Response truncated (max tokens reached)",
          "The response was cut off. Try a shorter prompt or increase max_tokens.")
      else ("Empty response from model", "The model returned no content.")
    { base with
        warning := some pair.1
        warningSuggestion := some pair.2
        warningType := some "empty_response" }
  else base

/-- Text interpolated for `${stopReason || 'null'}`. -/
def stopReasonOrNullText (s : List Char) : String :=
  if s = [] then "null" else ⟨s⟩

/-- Non-streaming result assembly of `AnthropicProvider.makeRequest`
(providers.js 304-413).  `latencyText` is the JS decimal rendering of the
float `latency` used inside one template literal; `maxTokensDefault` is
`DEFAULT_PARAMS.max_tokens` from config/models.js (a module constant whose
file is outside src/, passed here as a parameter). -/
def anthropicNonStreamResult (pricing : Option Pricing) (latency : ℚ)
    (latencyText : String) (maxTokensDefault : Nat)
    (completion : List Char) (usage : AUsage) (stopReason : Option (List Char)) :
    RespRecord :=
  if jsBlank completion then
    let pair : String × String :=
      if stopReason == some "end_turn".toList then
        ("Claude Completed Turn with Empty Response",
          anthropicEndTurnSuggestion usage.output_tokens usage.input_tokens)
      else if stopReason == some "max_tokens".toList then
        ("Response Truncated (Max Tokens Reached)",
          anthropicMaxTokensSuggestion maxTokensDefault)
      else if stopReason == some "stop_sequence".toList then
        ("Response Stopped at Stop Sequence", anthropicStopSequenceSuggestion)
      else
        match stopReason with
        | none =>
          ("Streaming Connection Interrupted",
            anthropicInterruptedSuggestion usage.output_tokens completion.length latencyText)
        | some s =>
          ("Unexpected Empty Response",
            anthropicUnexpectedEmptySuggestion (stopReasonOrNullText s)
              usage.output_tokens completion.length)
    { text := some completion
      latency := some latency
      inputTokens := some usage.input_tokens
      outputTokens := some usage.output_tokens
      totalTokens := some (usage.input_tokens + usage.output_tokens)
      estimatedCost := some (calculateCost pricing usage.input_tokens usage.output_tokens)
      warning := some pair.1
      warningSuggestion := some pair.2
      warningType := some "empty_response"
      stopReason := some stopReason }
  else
    { text := some completion
      latency := some latency
      inputTokens := some usage.input_tokens
      outputTokens := some usage.output_tokens
      totalTokens := some (usage.input_tokens + usage.output_tokens)
      estimatedCost := some (calculateCost pricing usage.input_tokens usage.output_tokens) }

/-- Finalization of `AnthropicProvider.handleStreamingResponse`
(providers.js 526-599) after the byte loop produced accumulator `st`:
falsy token counters fall back to `Metrics.estimateTokenCount`; the empty
warning fires only for empty text combined with one of the three
"problematic" stop reasons (an empty response with a `null` stop reason is
returned without any warning). -/
def anthropicStreamFinalize (pricing : Option Pricing) (latency : ℚ)
    (maxTokensDefault : Nat) (prompt : List Char) (st : ASt) : RespRecord :=
  let inputTokens := if st.inputTokens = 0 then estimateTokenCount (some ⟨prompt⟩)
    else st.inputTokens
  let outputTokens := if st.outputTokens = 0 then estimateTokenCount (some ⟨st.fullText⟩)
    else st.outputTokens
  let hasEmptyText := jsBlank st.fullText
  let hasProblematicStopReason :=
    st.stopReason == some "end_turn".toList
    || st.stopReason == some "max_tokens".toList
    || st.stopReason == some "stop_sequence".toList
  if hasEmptyText && hasProblematicStopReason then
    let pair : String × String :=
      if st.stopReason == some "end_turn".toList then
        ("Claude Completed Turn with Empty Response",
          anthropicEndTurnStreamSuggestion outputTokens inputTokens)
      else if st.stopReason == some "max_tokens".toList then
        ("Response Truncated (Max Tokens Reached)",
          anthropicMaxTokensSuggestion maxTokensDefault)
      else if st.stopReason == some "stop_sequence".toList then
        ("Response Stopped at Stop Sequence", anthropicStopSequenceSuggestion)
      else ("Empty Response from Claude", "Claude returned no meaningful content. ")
    { text := some st.fullText
      latency := some latency
      inputTokens := some inputTokens
      outputTokens := some outputTokens
      totalTokens := some (inputTokens + outputTokens)
      estimatedCost := some (calculateCost pricing inputTokens outputTokens)
      warning := some pair.1
      warningSuggestion := some pair.2
      warningType := some "empty_response"
      stopReason := some st.stopReason
      streamed := some true }
  else
    { text := some st.fullText
      latency := some latency
      inputTokens := some inputTokens
      outputTokens := some outputTokens
      totalTokens := some (inputTokens + outputTokens)
      estimatedCost := some (calculateCost pricing inputTokens outputTokens)
      stopReason := some st.stopReason
      streamed := some true }

/-- The value `Metrics.estimateTokenCount(prompt)` computed at providers.js
line 207 inside `OpenAIProvider.handleStreamingResponse`.  That method has
no `prompt` parameter (unlike the Anthropic and Google variants), so the
identifier resolves to the global `window.prompt` function in the browser
the app runs in: a truthy value, so the `!text` guard does not fire, and
its `.length` is the function's arity — 0, since both WebIDL parameters of
`prompt(optional message = "", optional default = "")` are optional —
giving `Math.ceil(0 / 4) = 0` regardless of the request prompt.  (In a
runtime without that global the line throws a ReferenceError instead.) -/
def openaiStreamInputTokens : Nat := (0 + 3) / 4

/-- Finalization of `OpenAIProvider.handleStreamingResponse`
(providers.js 206-218): output tokens are always estimated from the
assembled text (the loop never reads usage), input tokens come from the
out-of-scope `prompt` identifier — see `openaiStreamInputTokens`. -/
def openaiStreamFinalize (pricing : Option Pricing) (latency : ℚ) (st : OSt) :
    RespRecord :=
  let inputTokens := openaiStreamInputTokens
  let outputTokens := estimateTokenCount (some ⟨st.fullText⟩)
  { text := some st.fullText
    latency := some latency
    inputTokens := some inputTokens
    outputTokens := some outputTokens
    totalTokens := some (inputTokens + outputTokens)
    estimatedCost := some (calculateCost pricing inputTokens outputTokens)
    streamed := some true }

/-- The parts of a parsed Google non-streaming body read by the source once
`data.candidates` is non-empty: `candidates[0]?.content?.parts[0]?.text`,
`usageMetadata?.promptTokenCount`, `usageMetadata?.candidatesTokenCount`
and `candidates[0]?.finishReason`. -/
structure GData where
  content : Option (List Char)
  promptTokenCount : Option Nat
  candidatesTokenCount : Option Nat
  finishReason : Option (List Char)
  deriving Repr, DecidableEq

/-- `data.candidates[0]?.content?.parts[0]?.text || ''`. -/
def googleCompletion (d : GData) : List Char :=
  match d.content with
  | none => []
  | some c => c

/-- Non-streaming result assembly of `GoogleProvider.makeRequest`
(providers.js 716-774).  `data = none` models a body whose `candidates`
array is absent or empty: the source then returns the hardcoded record with
`estimatedCost: 0` (a number, not null) without consulting the pricing. -/
def googleNonStreamResult (pricing : Option Pricing) (latency : ℚ)
    (prompt : List Char) (data : Option GData) : RespRecord :=
  match data with
  | none =>
    { text := some []
      latency := some latency
      inputTokens := some 0
      outputTokens := some 0
      totalTokens := some 0
      estimatedCost := some (some 0)
      warning := some "No response generated"
      warningSuggestion := some
        "Google safety filters may have blocked this response. Try rephrasing your prompt."
      warningType := some "empty_response" }
  | some d =>
    let completion := googleCompletion d
    let inputTokens := jsOrNat d.promptTokenCount (estimateTokenCount (some ⟨prompt⟩))
    let outputTokens := jsOrNat d.candidatesTokenCount (estimateTokenCount (some ⟨completion⟩))
    let base : RespRecord :=
      { text := some completion
        latency := some latency
        inputTokens := some inputTokens
        outputTokens := some outputTokens
        totalTokens := some (inputTokens + outputTokens)
        estimatedCost := some (calculateCost pricing inputTokens outputTokens)
        finishReason := some d.finishReason }
    if jsBlank completion then
      let pair : String × String :=
        if d.finishReason == some "SAFETY".toList then
          ("Response blocked by safety filters",
            "Google safety filters blocked this response. Try rephrasing your prompt to avoid sensitive topics.")
        else if d.finishReason == some "MAX_TOKENS".toList then
          ("Response truncated (max tokens reached)",
            "The response was cut off. Try a shorter prompt or increase maxOutputTokens.")
        else ("Empty response from model", "The model returned no content.")
      { base with
          warning := some pair.1
          warningSuggestion := some pair.2
          warningType := some "empty_response" }
    else base

/-- Finalization of `GoogleProvider.handleStreamingResponse`
(providers.js 852-866): falsy counters fall back to the estimates; no empty
classification happens on this path. -/
def googleStreamFinalize (pricing : Option Pricing) (latency : ℚ)
    (prompt : List Char) (st : GSt) : RespRecord :=
  let inputTokens := if st.inputTokens = 0 then estimateTokenCount (some ⟨prompt⟩)
    else st.inputTokens
  let outputTokens := if st.outputTokens = 0 then estimateTokenCount (some ⟨st.fullText⟩)
    else st.outputTokens
  { text := some st.fullText
    latency := some latency
    inputTokens := some inputTokens
    outputTokens := some outputTokens
    totalTokens := some (inputTokens + outputTokens)
    estimatedCost := some (calculateCost pricing inputTokens outputTokens)
    streamed := some true }

/-! ## Dispatch (`ProviderFactory.executeRequest`, providers.js 905-943, and
the per-card loop of `App.handleSubmit`). -/

inductive ProviderTag where
  | openai
  | anthropic
  | google
  | otherProvider (name : String)
  deriving Repr, DecidableEq

def providerName : ProviderTag → String
  | .openai => "openai"
  | .anthropic => "anthropic"
  | .google => "google"
  | .otherProvider n => n

/-- One dispatch target: the model card's configuration object. -/
structure ModelConfig where
  id : String
  name : String
  provider : ProviderTag
  contextWindow : Option Nat
  deriving Repr, DecidableEq

/-- The impure context of one dispatch run.  `makeRequest cfg` is the record
that `provider.makeRequest(...)` resolves to for that target (the provider
methods never reject: every transport failure is caught inside and returned
as a record), `now cfg` is the `new Date().toISOString()` read when the
target's record is assembled, and `elapsed cfg` is the tracker reading used
by the catch branch.  `executeRequest` reaches the network only through
`makeRequest`. -/
structure Effects where
  makeRequest : ModelConfig → RespRecord
  now : ModelConfig → String
  elapsed : ModelConfig → ℚ

/-- The uniform per-target record handed back to the caller; absent fields
are `none`. -/
structure ResultRecord where
  model : String
  modelId : Option String
  provider : ProviderTag
  contextWindow : Option Nat
  timestamp : Option String
  resp : RespRecord
  deriving DecidableEq

/-- The immediate record synthesized when the target's credential is falsy
(providers.js 908-917): category `auth`, latency 0, no network call. -/
def authErrorRecord (cfg : ModelConfig) : ResultRecord :=
  { model := cfg.name
    modelId := none
    provider := cfg.provider
    contextWindow := none
    timestamp := none
    resp :=
      { error := some "API key not configured"
        errorSuggestion := some
          ("Please add your " ++ providerName cfg.provider ++ " API key in settings.")
        errorType := some "auth"
        latency := some 0 } }

/-- Embedding of `ProviderFactory.executeRequest(modelConfig, prompt,
apiKey, options, onChunk)`.  An unknown provider tag makes `createProvider`
throw, which the catch converts through `ErrorHandler.parseError` (whose
provider-specific rewriting does not apply to an unknown provider name, so
the raw message with empty suggestion and type `unknown` survives). -/
def executeRequest (eff : Effects) (cfg : ModelConfig) (apiKey : Option String) :
    ResultRecord :=
  if jsFalsyStr apiKey then authErrorRecord cfg
  else
    match cfg.provider with
    | .otherProvider n =>
      { model := cfg.name
        modelId := some cfg.id
        provider := cfg.provider
        contextWindow := none
        timestamp := none
        resp :=
          { error := some ("Unknown provider: " ++ n)
            errorSuggestion := some ""
            errorType := some "unknown"
            latency := some (eff.elapsed cfg) } }
    | _ =>
      { model := cfg.name
        modelId := some cfg.id
        provider := cfg.provider
        contextWindow := cfg.contextWindow
        timestamp := some (eff.now cfg)
        resp := eff.makeRequest cfg }

/-- The per-card loop of `App.handleSubmit`: one `executeRequest` per card,
credential looked up per provider; every promise resolves (nothing rejects
the batch), contributing exactly one record per card.  (The JS `results`
array receives the records in promise-resolution order; this list keeps the
per-target correspondence, which is what the per-record claims are about.) -/
def handleSubmitResults (eff : Effects) (apiKeys : ProviderTag → Option String)
    (cards : List ModelConfig) : List ResultRecord :=
  cards.map (fun cfg => executeRequest eff cfg (apiKeys cfg.provider))

/-! ## Claims about the Metrics calculator -/

/-- C5: for every pricing record and non-negative token counts,
`calculateCost` equals `(i/1000)*input + (o/1000)*output` (the spec-side
formula `specCalculateCost`), and `calculateCost(null, i, o)` is null. -/
theorem calculateCost_matches_spec (pricing : Option Pricing) (i o : ℚ)
    (hi : 0 ≤ i) (ho : 0 ≤ o) :
    calculateCost pricing i o = specCalculateCost pricing i o
    ∧ calculateCost none i o = none := by
  cases pricing <;> exact ⟨rfl, rfl⟩

theorem calculateCost_matches_spec_witness :
    (0 : ℚ) ≤ 1500 ∧ (0 : ℚ) ≤ 250
    ∧ calculateCost (some ⟨3, 6⟩) 1500 250 = specCalculateCost (some ⟨3, 6⟩) 1500 250
    ∧ calculateCost none 1500 250 = none
    ∧ calculateCost (some ⟨3, 6⟩) 1500 250 = some 6 := by
  have h := calculateCost_matches_spec (some ⟨3, 6⟩) 1500 250 (by norm_num) (by norm_num)
  refine ⟨by norm_num, by norm_num, h.1, h.2, ?_⟩
  show some ((1500 / 1000 : ℚ) * 3 + (250 / 1000) * 6) = some 6
  norm_num

/-- C9: `estimateTokenCount` equals the integer ceiling of `length / 4`
(the spec-side `specEstimateTokenCount`), and is 0 on absent and on empty
text. -/
theorem estimateTokenCount_matches_spec (t : Option String) :
    estimateTokenCount t = specEstimateTokenCount t
    ∧ estimateTokenCount none = 0 ∧ estimateTokenCount (some "") = 0 := by
  refine ⟨?_, rfl, rfl⟩
  cases t with
  | none => rfl
  | some s =>
    show (if s.isEmpty = true then 0 else ⌈(s.length : ℚ) / 4⌉₊) = (s.length + 3) / 4
    by_cases h : s.isEmpty = true
    · rw [if_pos h]
      have hs : s = "" := (String.isEmpty_iff s).mp h
      rw [hs]
      rfl
    · rw [if_neg h, ceil_div_four]

/-! ## Claim about the dispatch loop -/

/-- C3: the dispatch loop produces exactly one record per target, each
record is that target's `executeRequest` value; a target with a falsy
credential gets the immediate `auth` error record, which does not depend on
the network effects at all (no network call); and each target's record
depends only on the effects observed for that target, so one target's
failure cannot alter another target's record or reject the batch (the batch
is a total function into a list, nothing throws). -/
theorem dispatch_batch_per_target (eff eff2 : Effects)
    (apiKeys : ProviderTag → Option String) (cards : List ModelConfig) :
    (handleSubmitResults eff apiKeys cards).length = cards.length
    ∧ (∀ i (h : i < cards.length) (h2 : i < (handleSubmitResults eff apiKeys cards).length),
        (handleSubmitResults eff apiKeys cards).get ⟨i, h2⟩
          = executeRequest eff (cards.get ⟨i, h⟩) (apiKeys (cards.get ⟨i, h⟩).provider))
    ∧ (∀ cfg : ModelConfig, jsFalsyStr (apiKeys cfg.provider) = true →
        executeRequest eff cfg (apiKeys cfg.provider) = authErrorRecord cfg
          ∧ (executeRequest eff cfg (apiKeys cfg.provider)).resp.errorType = some "auth"
          ∧ executeRequest eff cfg (apiKeys cfg.provider)
              = executeRequest eff2 cfg (apiKeys cfg.provider))
    ∧ (∀ cfg : ModelConfig,
        eff.makeRequest cfg = eff2.makeRequest cfg →
        eff.now cfg = eff2.now cfg →
        eff.elapsed cfg = eff2.elapsed cfg →
        executeRequest eff cfg (apiKeys cfg.provider)
          = executeRequest eff2 cfg (apiKeys cfg.provider)) := by
  refine ⟨by simp [handleSubmitResults], ?_, ?_, ?_⟩
  · intro i h h2
    simp [handleSubmitResults]
  · intro cfg hc
    refine ⟨by simp [executeRequest, hc], ?_, by simp [executeRequest, hc]⟩
    simp [executeRequest, hc, authErrorRecord]
  · intro cfg h1 h2 h3
    unfold executeRequest
    by_cases hk : jsFalsyStr (apiKeys cfg.provider) = true
    · rw [if_pos hk, if_pos hk]
    · rw [if_neg hk, if_neg hk]
      rcases hp : cfg.provider with _ | _ | _ | n <;> simp [hp, h1, h2, h3]

def demoCardOpenai : ModelConfig :=
  ⟨"gpt-4-turbo", "GPT-4 Turbo", .openai, some 128000⟩

def demoCardAnthropic : ModelConfig :=
  ⟨"claude-3-opus-20240229", "Claude 3 Opus", .anthropic, some 200000⟩

def demoCardGoogle : ModelConfig :=
  ⟨"gemini-1.5-pro-latest", "Gemini 1.5 Pro", .google, some 1048576⟩

/-- Demo credential set: the Anthropic key is missing. -/
def demoKeys : ProviderTag → Option String
  | .openai => some "sk-demo"
  | .anthropic => none
  | .google => some "g-demo"
  | .otherProvider _ => none

def demoResp : RespRecord := { text := some "OK".toList, latency := some 120 }

def demoRespErr : RespRecord :=
  { error := some "HTTP 500", errorType := some "api_error", latency := some 80 }

def demoEff : Effects :=
  ⟨fun _ => demoResp, fun _ => "2026-02-03T04:05:06.000Z", fun _ => 7⟩

/-- Same effects except that the Anthropic target now fails upstream. -/
def demoEff2 : Effects :=
  ⟨fun cfg => if cfg.provider = .anthropic then demoRespErr else demoResp,
    fun _ => "2026-02-03T04:05:06.000Z", fun _ => 7⟩

theorem dispatch_batch_per_target_witness :
    (handleSubmitResults demoEff demoKeys
        [demoCardOpenai, demoCardAnthropic, demoCardGoogle]).length = 3
    ∧ executeRequest demoEff demoCardAnthropic (demoKeys demoCardAnthropic.provider)
        = authErrorRecord demoCardAnthropic
    ∧ (executeRequest demoEff demoCardAnthropic
        (demoKeys demoCardAnthropic.provider)).resp.errorType = some "auth"
    ∧ executeRequest demoEff demoCardAnthropic (demoKeys demoCardAnthropic.provider)
        = executeRequest demoEff2 demoCardAnthropic (demoKeys demoCardAnthropic.provider)
    ∧ executeRequest demoEff demoCardOpenai (demoKeys demoCardOpenai.provider)
        = executeRequest demoEff2 demoCardOpenai (demoKeys demoCardOpenai.provider)
    ∧ executeRequest demoEff demoCardGoogle (demoKeys demoCardGoogle.provider)
        = executeRequest demoEff2 demoCardGoogle (demoKeys demoCardGoogle.provider) := by
  obtain ⟨h1, h2, h3, h4⟩ :=
    dispatch_batch_per_target demoEff demoEff2 demoKeys
      [demoCardOpenai, demoCardAnthropic, demoCardGoogle]
  refine ⟨h1, (h3 demoCardAnthropic rfl).1, (h3 demoCardAnthropic rfl).2.1,
    (h3 demoCardAnthropic rfl).2.2, h4 demoCardOpenai rfl rfl rfl,
    h4 demoCardGoogle rfl rfl rfl⟩

/-! ## Claims about the empty-response classification -/

/-- C4: an assembled text that is non-empty and not whitespace-only is
always returned as a plain success record — no warning and no error — on
every provider, streamed or not, regardless of the terminal reason and of
the text's length in characters or tokens. -/
theorem nonempty_text_classified_success
    (pricing : Option Pricing) (latency : ℚ) (latencyText : String)
    (maxTokensDefault : Nat) (prompt completion : List Char)
    (hc : jsBlank completion = false)
    (ou : OUsage) (au : AUsage) (finishReason stopReason : Option (List Char))
    (ast : ASt) (ha : jsBlank ast.fullText = false)
    (gd : GData) (hg : jsBlank (googleCompletion gd) = false)
    (ost : OSt) (gst : GSt) :
    ((openaiNonStreamResult pricing latency completion ou finishReason).warning = none
      ∧ (openaiNonStreamResult pricing latency completion ou finishReason).error = none)
    ∧ ((anthropicNonStreamResult pricing latency latencyText maxTokensDefault
          completion au stopReason).warning = none
      ∧ (anthropicNonStreamResult pricing latency latencyText maxTokensDefault
          completion au stopReason).error = none)
    ∧ ((anthropicStreamFinalize pricing latency maxTokensDefault prompt ast).warning = none
      ∧ (anthropicStreamFinalize pricing latency maxTokensDefault prompt ast).error = none)
    ∧ ((googleNonStreamResult pricing latency prompt (some gd)).warning = none
      ∧ (googleNonStreamResult pricing latency prompt (some gd)).error = none)
    ∧ (openaiStreamFinalize pricing latency ost).warning = none
    ∧ (googleStreamFinalize pricing latency prompt gst).warning = none := by
  refine ⟨⟨?_, ?_⟩, ⟨?_, ?_⟩, ⟨?_, ?_⟩, ⟨?_, ?_⟩, ?_, ?_⟩ <;>
    simp [openaiNonStreamResult, anthropicNonStreamResult, anthropicStreamFinalize,
      googleNonStreamResult, googleStreamFinalize, openaiStreamFinalize, hc, ha, hg]

theorem nonempty_text_classified_success_witness :
    jsBlank "4".toList = false
    ∧ (anthropicNonStreamResult none 100 "100" 1000 "4".toList ⟨12, 1⟩
        (some "end_turn".toList)).warning = none
    ∧ (anthropicNonStreamResult none 100 "100" 1000 "4".toList ⟨12, 1⟩
        (some "end_turn".toList)).error = none
    ∧ (openaiNonStreamResult none 100 "4".toList ⟨12, 1, 13⟩
        (some "stop".toList)).warning = none
    ∧ (anthropicStreamFinalize none 100 1000 "What is 2+2?".toList
        ⟨"4".toList, ["4".toList], 0, 1, some "end_turn".toList⟩).warning = none := by
  have h := nonempty_text_classified_success none 100 "100" 1000
    "What is 2+2?".toList "4".toList (by decide)
    ⟨12, 1, 13⟩ ⟨12, 1⟩ (some "stop".toList) (some "end_turn".toList)
    ⟨"4".toList, ["4".toList], 0, 1, some "end_turn".toList⟩ (by decide)
    ⟨some "4".toList, none, none, none⟩ (by decide)
    ⟨"4".toList, ["4".toList]⟩ ⟨"4".toList, ["4".toList], 0, 0⟩
  exact ⟨by decide, h.2.1.1, h.2.1.2, h.1.1, h.2.2.1.1⟩

/-- C1 counterexample: the claim fails on the Anthropic streamed path — an
assembled response with empty text and null stop reason (the stream ended
before any terminal signal) is returned as a success-shaped record with no
warning and no diagnostic at all, not as a `warning`. -/
theorem empty_null_reason_streamed_no_warning :
    (anthropicStreamFinalize none 100 1000 [] ⟨[], [], 0, 0, none⟩).warning = none
    ∧ (anthropicStreamFinalize none 100 1000 [] ⟨[], [], 0, 0, none⟩).warningType = none
    ∧ (anthropicStreamFinalize none 100 1000 [] ⟨[], [], 0, 0, none⟩).error = none
    ∧ (anthropicStreamFinalize none 100 1000 [] ⟨[], [], 0, 0, none⟩).text = some []
    ∧ (anthropicStreamFinalize none 100 1000 [] ⟨[], [], 0, 0, none⟩).stopReason
        = some none :=
  ⟨rfl, rfl, rfl, rfl, rfl⟩

/-- C1 (amended): empty or whitespace-only text with a null terminal reason
is classified as a `warning` carrying the network/proxy-interruption retry
diagnostic only by the Anthropic provider on the non-streamed path; the
Anthropic streamed path returns such a response without any warning, the
OpenAI and Google non-streamed paths attach the generic empty-response
diagnostic instead, and the OpenAI and Google streamed paths never attach a
warning. -/
theorem empty_null_reason_classification
    (pricing : Option Pricing) (latency : ℚ) (latencyText : String)
    (maxTokensDefault : Nat) (prompt completion : List Char)
    (hb : jsBlank completion = true)
    (au : AUsage) (ou : OUsage)
    (ast : ASt) (hab : jsBlank ast.fullText = true) (hasr : ast.stopReason = none)
    (gd : GData) (hgb : jsBlank (googleCompletion gd) = true)
    (hgf : gd.finishReason = none)
    (ost : OSt) (gst : GSt) :
    ((anthropicNonStreamResult pricing latency latencyText maxTokensDefault
        completion au none).warning = some "Streaming Connection Interrupted"
      ∧ (anthropicNonStreamResult pricing latency latencyText maxTokensDefault
          completion au none).warningSuggestion
        = some (anthropicInterruptedSuggestion au.output_tokens completion.length latencyText)
      ∧ (anthropicNonStreamResult pricing latency latencyText maxTokensDefault
          completion au none).warningType = some "empty_response")
    ∧ (anthropicStreamFinalize pricing latency maxTokensDefault prompt ast).warning = none
    ∧ ((openaiNonStreamResult pricing latency completion ou none).warning
        = some "Empty response from model"
      ∧ (openaiNonStreamResult pricing latency completion ou none).warningSuggestion
        = some "The model returned no content.")
    ∧ (googleNonStreamResult pricing latency prompt (some gd)).warning
        = some "Empty response from model"
    ∧ (openaiStreamFinalize pricing latency ost).warning = none
    ∧ (googleStreamFinalize pricing latency prompt gst).warning = none := by
  refine ⟨⟨?_, ?_, ?_⟩, ?_, ⟨?_, ?_⟩, ?_, ?_, ?_⟩ <;>
    simp [openaiNonStreamResult, anthropicNonStreamResult, anthropicStreamFinalize,
      googleNonStreamResult, googleStreamFinalize, openaiStreamFinalize,
      hb, hab, hasr, hgb, hgf]

theorem empty_null_reason_classification_witness :
    jsBlank ([] : List Char) = true
    ∧ (anthropicNonStreamResult none 100 "2500" 1000 [] ⟨25, 0⟩ none).warning
        = some "Streaming Connection Interrupted"
    ∧ (anthropicNonStreamResult none 100 "2500" 1000 [] ⟨25, 0⟩ none).warningSuggestion
        = some (anthropicInterruptedSuggestion 0 0 "2500")
    ∧ (anthropicStreamFinalize none 100 1000 [] ⟨[], [], 0, 0, none⟩).warning = none
    ∧ (openaiNonStreamResult none 100 [] ⟨25, 0, 25⟩ none).warning
        = some "Empty response from model"
    ∧ (googleNonStreamResult none 100 [] (some ⟨none, none, none, none⟩)).warning
        = some "Empty response from model" := by
  have h := empty_null_reason_classification none 100 "2500" 1000 [] [] (by decide)
    ⟨25, 0⟩ ⟨25, 0, 25⟩ ⟨[], [], 0, 0, none⟩ (by decide) rfl
    ⟨none, none, none, none⟩ (by decide) rfl
    ⟨[], []⟩ ⟨[], [], 0, 0⟩
  exact ⟨by decide, h.1.1, h.1.2.1, h.2.1, h.2.2.1.1, h.2.2.2.1⟩

/-! ## Claims about cost propagation and token fallbacks -/

/-- C6 counterexample: the Google non-streaming empty-candidates branch
returns `estimatedCost: 0` — a number, not null — even though the pricing
lookup yielded no entry, while `calculateCost` itself would have produced
null. -/
theorem google_empty_candidates_cost_zero :
    (googleNonStreamResult none 100 [] none).estimatedCost = some (some 0)
    ∧ calculateCost none 0 0 = none
    ∧ ¬ (googleNonStreamResult none 100 [] none).estimatedCost = some none := by
  refine ⟨rfl, rfl, ?_⟩
  rw [show (googleNonStreamResult none 100 [] none).estimatedCost = some (some 0) from rfl]
  simp

/-- C6 (amended): on every result-assembly path that computes the cost
through `Metrics.calculateCost`, the record's estimated cost is JS null
whenever the pricing lookup yields no entry — never zero; the single
exception is the Google non-streaming empty-candidates branch, which
hardcodes the number 0 without consulting the pricing. -/
theorem missing_pricing_cost_null_except_google_empty
    (latency : ℚ) (latencyText : String) (maxTokensDefault : Nat)
    (prompt completion : List Char) (ou : OUsage) (au : AUsage)
    (finishReason stopReason : Option (List Char))
    (ost : OSt) (ast : ASt) (gst : GSt) (gd : GData) :
    (openaiNonStreamResult none latency completion ou finishReason).estimatedCost
        = some none
    ∧ (anthropicNonStreamResult none latency latencyText maxTokensDefault
        completion au stopReason).estimatedCost = some none
    ∧ (anthropicStreamFinalize none latency maxTokensDefault prompt ast).estimatedCost
        = some none
    ∧ (openaiStreamFinalize none latency ost).estimatedCost = some none
    ∧ (googleNonStreamResult none latency prompt (some gd)).estimatedCost = some none
    ∧ (googleStreamFinalize none latency prompt gst).estimatedCost = some none
    ∧ (googleNonStreamResult none latency prompt none).estimatedCost = some (some 0) := by
  refine ⟨?_, ?_, ?_, rfl, ?_, rfl, rfl⟩
  · unfold openaiNonStreamResult
    split <;> rfl
  · unfold anthropicNonStreamResult
    split <;> rfl
  · simp [anthropicStreamFinalize, calculateCost, apply_ite RespRecord.estimatedCost]
  · simp [googleNonStreamResult, calculateCost, apply_ite RespRecord.estimatedCost]

/-- C7: evaluation at the failing input.  On the OpenAI streamed path the
input-token fallback reads the out-of-scope identifier `prompt` (the global
`window.prompt` function, of arity 0), so the input-token count is the
constant 0 whatever the request prompt was — here a prompt whose estimate
is 9 — while the Anthropic and Google streamed paths do fall back to
`estimateTokenCount` over the request prompt and the assembled text when no
usage was reported in-band. -/
theorem openai_stream_prompt_fallback_bug :
    openaiStreamInputTokens = 0
    ∧ (openaiStreamFinalize none 100 ⟨"4".toList, ["4".toList]⟩).inputTokens = some 0
    ∧ estimateTokenCount (some "What is 2+2? Answer with one digit.") = 9
    ∧ ¬ (openaiStreamFinalize none 100 ⟨"4".toList, ["4".toList]⟩).inputTokens
        = some (estimateTokenCount (some "What is 2+2? Answer with one digit."))
    ∧ (∀ (prompt fullText : List Char) (em : List (List Char)) (sr : Option (List Char)),
        (anthropicStreamFinalize none 100 1000 prompt
            ⟨fullText, em, 0, 0, sr⟩).inputTokens
          = some (estimateTokenCount (some ⟨prompt⟩))
        ∧ (anthropicStreamFinalize none 100 1000 prompt
            ⟨fullText, em, 0, 0, sr⟩).outputTokens
          = some (estimateTokenCount (some ⟨fullText⟩)))
    ∧ (∀ (prompt fullText : List Char) (em : List (List Char)),
        (googleStreamFinalize none 100 prompt ⟨fullText, em, 0, 0⟩).inputTokens
          = some (estimateTokenCount (some ⟨prompt⟩))
        ∧ (googleStreamFinalize none 100 prompt ⟨fullText, em, 0, 0⟩).outputTokens
          = some (estimateTokenCount (some ⟨fullText⟩))) := by
  have hest : estimateTokenCount (some "What is 2+2? Answer with one digit.") = 9 := by
    show (if ("What is 2+2? Answer with one digit." : String).isEmpty = true then 0
      else ⌈(("What is 2+2? Answer with one digit." : String).length : ℚ) / 4⌉₊) = 9
    rw [if_neg (by decide),
      show ("What is 2+2? Answer with one digit." : String).length = 35 from rfl,
      ceil_div_four]
  refine ⟨rfl, rfl, hest, ?_, ?_, ?_⟩
  · rw [hest, show (openaiStreamFinalize none 100
        ⟨"4".toList, ["4".toList]⟩).inputTokens = some 0 from rfl]
    simp
  · intro prompt fullText em sr
    constructor <;>
      simp [anthropicStreamFinalize, apply_ite RespRecord.inputTokens,
        apply_ite RespRecord.outputTokens]
  · intro prompt fullText em
    unfold googleStreamFinalize
    exact ⟨rfl, rfl⟩
